import Mathlib

/-!
# selfdrive/common/clutil.cc: the OpenCL program cache

A shallow embedding of the compile-or-load cache of `clutil.cc`:

* the text formatting used to derive the cache key (`util::string_format`, a
  wrapper around `snprintf`) and the function `get_cached_path`;
* the load / compile / store protocol of `cl_program_from_string`, as a
  state-passing program over a file store and a record of the answers of the
  OpenCL runtime, with a trace of the external calls that were made;
* the status-code table `cl_get_error_string`.

C strings are lists of characters; a `%s` conversion reads its argument up to
the first NUL. Machine integers are naturals or integers, `size_t` being
reduced modulo `2 ^ 64`.
-/

namespace Clutil

/-! ## Text formatting -/

/-- Text: the characters of a `std::string` or of the memory a `const char*`
points to. -/
abbrev Text := List Char

/-- The C string that starts a buffer: its characters up to the first NUL. -/
def c_str (s : Text) : Text := s.takeWhile (fun c => c != '\x00')

/-- The conversion `%d` of `printf` applied to an `int`: decimal digits, with a
minus sign for a negative value. -/
def fmt_d : Int → Text
  | Int.ofNat n => Nat.toDigits 10 n
  | Int.negSucc n => '-' :: Nat.toDigits 10 (n + 1)

/-- The conversion `%016` followed by `PRIx64` of `printf`: lowercase
hexadecimal digits, padded on the left with `0` up to a width of 16. -/
def fmt_016x (n : Nat) : Text := List.leftpad 16 '0' (Nat.toDigits 16 n)

/-- One piece of a `printf` format string. -/
inductive Directive where
  /-- Ordinary characters, copied as they are. -/
  | lit (t : Text)
  /-- The conversion `%s`. -/
  | s
  /-- The conversion `%d`. -/
  | d
  /-- The conversion `%016` `PRIx64`. -/
  | x016
  deriving DecidableEq, Repr

/-- One variadic argument of a `printf` call. -/
inductive FormatArg where
  /-- A `const char*`. -/
  | str (t : Text)
  /-- An `int`. -/
  | int (n : Int)
  /-- A `size_t` (64 bits wide). -/
  | size (n : Nat)
  deriving DecidableEq, Repr

/-- The function `util::string_format` of `utilpp.h`, that is `snprintf` into
a fresh `std::string`: the directives are processed from left to right, each
conversion consuming the next argument. When the format is exhausted the
arguments that remain are ignored, as the C standard prescribes. A conversion
that meets no argument of its type ends the output (undefined behaviour in C;
no call of this file does that). -/
def string_format : List Directive → List FormatArg → Text
  | [], _ => []
  | Directive.lit t :: ds, as => t ++ string_format ds as
  | Directive.s :: ds, FormatArg.str t :: as => c_str t ++ string_format ds as
  | Directive.d :: ds, FormatArg.int n :: as => fmt_d n ++ string_format ds as
  | Directive.x016 :: ds, FormatArg.size n :: as => fmt_016x n ++ string_format ds as
  | _ :: _, _ => []

/-- The reading of a format string, for the conversions this file uses:
`%s`, `%d`, and `%016lx` or `%016llx` (the two expansions of `PRIx64`). Any
other character is copied. -/
def parse_format : List Char → List Directive
  | [] => []
  | '%' :: 's' :: rest => Directive.s :: parse_format rest
  | '%' :: 'd' :: rest => Directive.d :: parse_format rest
  | '%' :: '0' :: '1' :: '6' :: 'l' :: 'l' :: 'x' :: rest => Directive.x016 :: parse_format rest
  | '%' :: '0' :: '1' :: '6' :: 'l' :: 'x' :: rest => Directive.x016 :: parse_format rest
  | c :: rest => Directive.lit [c] :: parse_format rest

/-- The format string of line 120. -/
def hash_buf_format : List Directive := parse_format "%s%s%d%s%s".toList

/-- The format string `"/tmp/clcache/%016" PRIx64 ".clb"` of line 122. -/
def cache_path_format : List Directive := parse_format "/tmp/clcache/%016lx.clb".toList

/-! ## Key derivation (`get_cached_path`, lines 114-123) -/

/-- Line 120 of `get_cached_path`: the string that is hashed. The call passes
six arguments (platform version, file, line, function, source, build
arguments) to a format with five conversions. -/
def hash_buf (platform_version file : Text) (line : Int) (function src args : Text) : Text :=
  string_format hash_buf_format
    [FormatArg.str platform_version, FormatArg.str file, FormatArg.int line,
     FormatArg.str function, FormatArg.str src, FormatArg.str args]

/-- Line 122 of `get_cached_path`: the file name made from a hash value. -/
def cache_file_name (hash : Nat) : Text :=
  string_format cache_path_format [FormatArg.size hash]

/-- Lines 120-122 of `get_cached_path`, once the platform version is known:
`std_hash` stands for `std::hash<std::string>`, whose result is a `size_t`. -/
def cached_path_of (std_hash : Text → Nat) (platform_version src args file : Text)
    (line : Int) (function : Text) : Text :=
  cache_file_name (std_hash (hash_buf platform_version file line function src args) % 2 ^ 64)

/-! ## Status codes (`cl_get_error_string`, lines 185-279) -/

/-- The function `cl_get_error_string`: the name of an OpenCL status code. -/
def cl_get_error_string (err : Int) : String :=
  match err with
  | 0 => "CL_SUCCESS"
  | -1 => "CL_DEVICE_NOT_FOUND"
  | -2 => "CL_DEVICE_NOT_AVAILABLE"
  | -3 => "CL_COMPILER_NOT_AVAILABLE"
  | -4 => "CL_MEM_OBJECT_ALLOCATION_FAILURE"
  | -5 => "CL_OUT_OF_RESOURCES"
  | -6 => "CL_OUT_OF_HOST_MEMORY"
  | -7 => "CL_PROFILING_INFO_NOT_AVAILABLE"
  | -8 => "CL_MEM_COPY_OVERLAP"
  | -9 => "CL_IMAGE_FORMAT_MISMATCH"
  | -10 => "CL_IMAGE_FORMAT_NOT_SUPPORTED"
  | -12 => "CL_MAP_FAILURE"
  | -13 => "CL_MISALIGNED_SUB_BUFFER_OFFSET"
  | -14 => "CL_EXEC_STATUS_ERROR_FOR_EVENTS_IN_WAIT_LIST"
  | -15 => "CL_COMPILE_PROGRAM_FAILURE"
  | -16 => "CL_LINKER_NOT_AVAILABLE"
  | -17 => "CL_LINK_PROGRAM_FAILURE"
  | -18 => "CL_DEVICE_PARTITION_FAILED"
  | -19 => "CL_KERNEL_ARG_INFO_NOT_AVAILABLE"
  | -30 => "CL_INVALID_VALUE"
  | -31 => "CL_INVALID_DEVICE_TYPE"
  | -32 => "CL_INVALID_PLATFORM"
  | -33 => "CL_INVALID_DEVICE"
  | -34 => "CL_INVALID_CONTEXT"
  | -35 => "CL_INVALID_QUEUE_PROPERTIES"
  | -36 => "CL_INVALID_COMMAND_QUEUE"
  | -37 => "CL_INVALID_HOST_PTR"
  | -38 => "CL_INVALID_MEM_OBJECT"
  | -39 => "CL_INVALID_IMAGE_FORMAT_DESCRIPTOR"
  | -40 => "CL_INVALID_IMAGE_SIZE"
  | -41 => "CL_INVALID_SAMPLER"
  | -42 => "CL_INVALID_BINARY"
  | -43 => "CL_INVALID_BUILD_OPTIONS"
  | -44 => "CL_INVALID_PROGRAM"
  | -45 => "CL_INVALID_PROGRAM_EXECUTABLE"
  | -46 => "CL_INVALID_KERNEL_NAME"
  | -47 => "CL_INVALID_KERNEL_DEFINITION"
  | -48 => "CL_INVALID_KERNEL"
  | -49 => "CL_INVALID_ARG_INDEX"
  | -50 => "CL_INVALID_ARG_VALUE"
  | -51 => "CL_INVALID_ARG_SIZE"
  | -52 => "CL_INVALID_KERNEL_ARGS"
  | -53 => "CL_INVALID_WORK_DIMENSION"
  | -54 => "CL_INVALID_WORK_GROUP_SIZE"
  | -55 => "CL_INVALID_WORK_ITEM_SIZE"
  | -56 => "CL_INVALID_GLOBAL_OFFSET"
  | -57 => "CL_INVALID_EVENT_WAIT_LIST"
  | -58 => "CL_INVALID_EVENT"
  | -59 => "CL_INVALID_OPERATION"
  | -60 => "CL_INVALID_GL_OBJECT"
  | -61 => "CL_INVALID_BUFFER_SIZE"
  | -62 => "CL_INVALID_MIP_LEVEL"
  | -63 => "CL_INVALID_GLOBAL_WORK_SIZE"
  | -64 => "CL_INVALID_PROPERTY"
  | -65 => "CL_INVALID_IMAGE_DESCRIPTOR"
  | -66 => "CL_INVALID_COMPILER_OPTIONS"
  | -67 => "CL_INVALID_LINKER_OPTIONS"
  | -68 => "CL_INVALID_DEVICE_PARTITION_COUNT"
  | -69 => "CL_INVALID_PIPE_SIZE"
  | -70 => "CL_INVALID_DEVICE_QUEUE"
  | -71 => "CL_INVALID_SPEC_ID"
  | -72 => "CL_MAX_SIZE_RESTRICTION_EXCEEDED"
  | -1002 => "CL_INVALID_D3D10_DEVICE_KHR"
  | -1003 => "CL_INVALID_D3D10_RESOURCE_KHR"
  | -1004 => "CL_D3D10_RESOURCE_ALREADY_ACQUIRED_KHR"
  | -1005 => "CL_D3D10_RESOURCE_NOT_ACQUIRED_KHR"
  | -1006 => "CL_INVALID_D3D11_DEVICE_KHR"
  | -1007 => "CL_INVALID_D3D11_RESOURCE_KHR"
  | -1008 => "CL_D3D11_RESOURCE_ALREADY_ACQUIRED_KHR"
  | -1009 => "CL_D3D11_RESOURCE_NOT_ACQUIRED_KHR"
  | -1010 => "CL_INVALID_DX9_MEDIA_ADAPTER_KHR"
  | -1011 => "CL_INVALID_DX9_MEDIA_SURFACE_KHR"
  | -1012 => "CL_DX9_MEDIA_SURFACE_ALREADY_ACQUIRED_KHR"
  | -1013 => "CL_DX9_MEDIA_SURFACE_NOT_ACQUIRED_KHR"
  | -1093 => "CL_INVALID_EGL_OBJECT_KHR"
  | -1092 => "CL_EGL_RESOURCE_NOT_ACQUIRED_KHR"
  | -1001 => "CL_PLATFORM_NOT_FOUND_KHR"
  | -1057 => "CL_DEVICE_PARTITION_FAILED_EXT"
  | -1058 => "CL_INVALID_PARTITION_COUNT_EXT"
  | -1059 => "CL_INVALID_PARTITION_NAME_EXT"
  | -1094 => "CL_INVALID_ACCELERATOR_INTEL"
  | -1095 => "CL_INVALID_ACCELERATOR_TYPE_INTEL"
  | -1096 => "CL_INVALID_ACCELERATOR_DESCRIPTOR_INTEL"
  | -1097 => "CL_ACCELERATOR_TYPE_NOT_SUPPORTED_INTEL"
  | -1000 => "CL_INVALID_GL_SHAREGROUP_REFERENCE_KHR"
  | -1098 => "CL_INVALID_VA_API_MEDIA_ADAPTER_INTEL"
  | -1099 => "CL_INVALID_VA_API_MEDIA_SURFACE_INTEL"
  | -1100 => "CL_VA_API_MEDIA_SURFACE_ALREADY_ACQUIRED_INTEL"
  | -1101 => "CL_VA_API_MEDIA_SURFACE_NOT_ACQUIRED_INTEL"
  | _ => "CL_UNKNOWN_ERROR"

/-! ## Reading digit strings back -/

/-- The value of one digit character (`0`-`9`, `a`-`f`). -/
def digitVal (c : Char) : Nat := "0123456789abcdef".toList.indexOf c

/-- The number a digit string denotes in base `b`, most significant digit first. -/
def textValue (b : Nat) (t : Text) : Nat := t.foldl (fun v c => v * b + digitVal c) 0

/-! ## The runtime, the file store and the trace of external calls -/

/-- An OpenCL context handle. -/
abbrev cl_context := Nat
/-- An OpenCL device handle. -/
abbrev cl_device_id := Nat
/-- An OpenCL platform handle. -/
abbrev cl_platform_id := Nat
/-- An OpenCL program handle; `none` is the NULL handle. -/
abbrev cl_program := Option Nat
/-- The content of a file or of a program binary. -/
abbrev Bytes := List UInt8

/-- The platform queries this file makes. -/
inductive cl_platform_info where
  | CL_PLATFORM_PROFILE
  | CL_PLATFORM_VERSION
  | CL_PLATFORM_NAME
  | CL_PLATFORM_VENDOR
  | CL_PLATFORM_EXTENSIONS
  deriving DecidableEq, Repr

/-- The program queries of `get_program_binary`. -/
inductive cl_program_info where
  | CL_PROGRAM_NUM_DEVICES
  | CL_PROGRAM_BINARY_SIZES
  | CL_PROGRAM_BINARIES
  deriving DecidableEq, Repr

/-- The build queries of `cl_print_build_errors`. -/
inductive cl_program_build_info where
  | CL_PROGRAM_BUILD_STATUS
  | CL_PROGRAM_BUILD_LOG
  deriving DecidableEq, Repr

/-- One call that leaves the program: to the OpenCL runtime, to the file
helpers of `common/util.h`, or to `printf`. -/
inductive Call where
  | clGetDeviceInfo (device : cl_device_id)
  | clGetPlatformInfo (platform : cl_platform_id) (param_name : cl_platform_info) (size : Nat)
  | read_file (path : Text)
  | clCreateProgramWithBinary (ctx : cl_context) (device : cl_device_id) (bin : Bytes)
  | clBuildProgram (prg : cl_program) (device : cl_device_id) (options : Option Text)
  | clCreateProgramWithSource (ctx : cl_context) (src : Text)
  | clGetProgramBuildInfo (prg : cl_program) (device : cl_device_id)
      (param_name : cl_program_build_info) (size : Nat)
  | printf (output : Text)
  | clGetProgramInfo (prg : cl_program) (param_name : cl_program_info)
  | write_file (path : Text) (data : Bytes)
  deriving DecidableEq, Repr

/-- Whether a call creates a program from source text. -/
def Call.isCreateFromSource : Call → Bool
  | Call.clCreateProgramWithSource _ _ => true
  | _ => false

/-- Whether a call builds a program with an options string, as the build of
a program made from source does. -/
def Call.isBuildWithOptions : Call → Bool
  | Call.clBuildProgram _ _ (some _) => true
  | _ => false

/-- Whether a call enters the compile-from-source path. -/
def Call.isSourceCompile (c : Call) : Bool :=
  c.isCreateFromSource || c.isBuildWithOptions

/-- Whether a call is a `write_file`. -/
def Call.isWrite : Call → Bool
  | Call.write_file _ _ => true
  | _ => false

/-- Whether a call belongs to the binary extraction of `get_program_binary`. -/
def Call.isExtraction : Call → Bool
  | Call.clGetProgramInfo _ _ => true
  | _ => false

/-- What surrounds the program and is not defined in `clutil.cc`: the two
checking macros of `clutil.h`, `std::hash<std::string>`, the file system, and
the answers of the OpenCL runtime. Every answer is a status code together with
what the call stores through its output pointer. -/
structure Runtime where
  /-- The macro `CL_CHECK(call)`, declared in `clutil.h`: whether execution
  goes on after a call that reported this status. When it does not, the
  process stops. -/
  CL_CHECK : Int → Bool
  /-- The macro `CL_CHECK_ERR(call)`, declared in `clutil.h`: whether
  execution goes on after a call that returned this object and stored this
  error code; the macro then evaluates to the object. -/
  CL_CHECK_ERR : cl_program → Int → Bool
  /-- The function object `std::hash<std::string>`. -/
  std_hash : Text → Nat
  /-- Whether a `write_file` to this path succeeds. -/
  write_file_ok : Text → Bool
  /-- The call `clGetDeviceInfo(device, CL_DEVICE_PLATFORM, ...)`. -/
  clGetDeviceInfo_platform : cl_device_id → Int × cl_platform_id
  /-- The call `clGetPlatformInfo(platform, param_name, 0, NULL, &size)`. -/
  clGetPlatformInfo_size : cl_platform_id → cl_platform_info → Int × Nat
  /-- The call `clGetPlatformInfo(platform, param_name, size, buf, NULL)`:
  the status and the characters written to the buffer. -/
  clGetPlatformInfo_value : cl_platform_id → cl_platform_info → Nat → Int × Text
  /-- The call `clCreateProgramWithBinary`: the program and the error code. -/
  clCreateProgramWithBinary : cl_context → cl_device_id → Bytes → cl_program × Int
  /-- The call `clBuildProgram(prg, 1, &device, options, NULL, NULL)`. -/
  clBuildProgram : cl_program → cl_device_id → Option Text → Int
  /-- The call `clCreateProgramWithSource`: the program and the error code. -/
  clCreateProgramWithSource : cl_context → Text → cl_program × Int
  /-- The query `CL_PROGRAM_BUILD_STATUS` of `clGetProgramBuildInfo`. -/
  clGetProgramBuildInfo_status : cl_program → cl_device_id → Int
  /-- The size query of `CL_PROGRAM_BUILD_LOG`. -/
  clGetProgramBuildInfo_log_size : cl_program → cl_device_id → Nat
  /-- The query `CL_PROGRAM_BUILD_LOG`: the characters written to a buffer
  of the given size. -/
  clGetProgramBuildInfo_log : cl_program → cl_device_id → Nat → Text
  /-- The query `CL_PROGRAM_NUM_DEVICES` of `clGetProgramInfo`. -/
  clGetProgramInfo_num_devices : cl_program → Int × Nat
  /-- The query `CL_PROGRAM_BINARY_SIZES` of `clGetProgramInfo`. -/
  clGetProgramInfo_binary_sizes : cl_program → Int × Nat
  /-- The query `CL_PROGRAM_BINARIES` of `clGetProgramInfo`: the status and
  the bytes written to a buffer of the given size. -/
  clGetProgramInfo_binaries : cl_program → Nat → Int × Bytes

/-- The state a run threads along: the readable files and the calls made so
far, the most recent last. -/
structure State where
  /-- The bytes of each readable file; `none` when the file is absent or
  cannot be read. -/
  files : Text → Option Bytes
  /-- The external calls made so far. -/
  calls : List Call

/-- How a run ends: it returns a value, or the process stops at a failed
assertion or check. -/
inductive Run (α : Type) where
  | ret (value : α) (state : State)
  | abort (state : State)

/-- The value a run returned, `none` when the process stopped. -/
def Run.result {α : Type} : Run α → Option α
  | Run.ret a _ => some a
  | Run.abort _ => none

/-- The state a run ended in. -/
def Run.state {α : Type} : Run α → State
  | Run.ret _ s => s
  | Run.abort s => s

/-- A piece of the program: a function of the state. -/
def Prog (α : Type) : Type := State → Run α

instance : Monad Prog where
  pure a := fun s => Run.ret a s
  bind m f := fun s =>
    match m s with
    | Run.ret a s1 => f a s1
    | Run.abort s1 => Run.abort s1

/-- Record an external call. -/
def call (c : Call) : Prog Unit :=
  fun s => Run.ret () { s with calls := s.calls ++ [c] }

/-- The macro `assert` of `assert.h`: the process stops when the condition
is false. -/
def assert (cond : Bool) : Prog Unit :=
  fun s => if cond then Run.ret () s else Run.abort s

/-- A buffer of `size` cells, all `init`, after a call wrote `written` at its
start. -/
def fill {α : Type} (size : Nat) (init : α) (written : List α) : List α :=
  (written ++ List.replicate (size - written.length) init).take size

/-- Modelled from the spec: `read_file` of `common/util.h` is not among the
sources. The spec's `lookup` reads the blob at an address and finds it or
finds it absent: the call returns the bytes of the file, or NULL when there
is no entry or the address is unreadable. -/
def read_file (path : Text) : Prog (Option Bytes) :=
  fun s => Run.ret (s.files path) { s with calls := s.calls ++ [Call.read_file path] }

/-- Modelled from the spec: `write_file` of `common/util.h` is not among the
sources. The spec's `store` writes the blob to the address and overwrites an
entry that exists; a failed write is discarded. The call returns 0 on
success and -1 on failure. -/
def write_file (rt : Runtime) (path : Text) (data : Bytes) : Prog Int :=
  fun s =>
    if rt.write_file_ok path then
      Run.ret 0 { files := fun p => if p = path then some data else s.files p,
                  calls := s.calls ++ [Call.write_file path data] }
    else
      Run.ret (-1) { s with calls := s.calls ++ [Call.write_file path data] }

/-! ## The functions of `clutil.cc` -/

/-- The function `get_platform_info` (lines 22-29). -/
def get_platform_info (rt : Runtime) (platform : cl_platform_id)
    (param_name : cl_platform_info) : Prog Text := do
  call (Call.clGetPlatformInfo platform param_name 0)
  let size := (rt.clGetPlatformInfo_size platform param_name).2
  assert (rt.CL_CHECK (rt.clGetPlatformInfo_size platform param_name).1)
  call (Call.clGetPlatformInfo platform param_name size)
  let written := (rt.clGetPlatformInfo_value platform param_name size).2
  assert (rt.CL_CHECK (rt.clGetPlatformInfo_value platform param_name size).1)
  return fill size '\x00' written

/-- The text `cl_print_build_errors` prints (line 83). -/
def build_errors_text (status : Int) (log : Text) : Text :=
  string_format (parse_format "build failed; status=%d, log:\n%s\n".toList)
    [FormatArg.int status, FormatArg.str log]

/-- The value of `sizeof(cl_build_status)`: the type is `cl_int`, 32 bits. -/
def sizeof_cl_build_status : Nat := 4

/-- The function `cl_print_build_errors` (lines 73-84): three unchecked
queries, then the status and the log are printed. -/
def cl_print_build_errors (rt : Runtime) (program : cl_program) (device : cl_device_id) :
    Prog Unit := do
  call (Call.clGetProgramBuildInfo program device cl_program_build_info.CL_PROGRAM_BUILD_STATUS
    sizeof_cl_build_status)
  let status := rt.clGetProgramBuildInfo_status program device
  call (Call.clGetProgramBuildInfo program device cl_program_build_info.CL_PROGRAM_BUILD_LOG 0)
  let log_size := rt.clGetProgramBuildInfo_log_size program device
  call (Call.clGetProgramBuildInfo program device cl_program_build_info.CL_PROGRAM_BUILD_LOG
    (log_size + 1))
  let log := fill (log_size + 1) '\x00'
    (rt.clGetProgramBuildInfo_log program device (log_size + 1))
  call (Call.printf (build_errors_text status log))

/-- The function `load_cached_program` (lines 87-97). -/
def load_cached_program (rt : Runtime) (ctx : cl_context) (device_id : cl_device_id)
    (cache_file : Text) : Prog cl_program := do
  let bin ← read_file (c_str cache_file)
  match bin with
  | none => return none
  | some bin =>
    call (Call.clCreateProgramWithBinary ctx device_id bin)
    let prg := (rt.clCreateProgramWithBinary ctx device_id bin).1
    assert (rt.CL_CHECK_ERR prg (rt.clCreateProgramWithBinary ctx device_id bin).2)
    call (Call.clBuildProgram prg device_id none)
    assert (rt.CL_CHECK (rt.clBuildProgram prg device_id none))
    return prg

/-- The function `get_program_binary` (lines 99-112). -/
def get_program_binary (rt : Runtime) (prg : cl_program) : Prog Bytes := do
  call (Call.clGetProgramInfo prg cl_program_info.CL_PROGRAM_NUM_DEVICES)
  let num_devices := (rt.clGetProgramInfo_num_devices prg).2
  assert (rt.CL_CHECK (rt.clGetProgramInfo_num_devices prg).1)
  assert (num_devices == 1)
  call (Call.clGetProgramInfo prg cl_program_info.CL_PROGRAM_BINARY_SIZES)
  let binary_size := (rt.clGetProgramInfo_binary_sizes prg).2
  assert (rt.CL_CHECK (rt.clGetProgramInfo_binary_sizes prg).1)
  assert (decide (binary_size > 0))
  call (Call.clGetProgramInfo prg cl_program_info.CL_PROGRAM_BINARIES)
  let written := (rt.clGetProgramInfo_binaries prg binary_size).2
  assert (rt.CL_CHECK (rt.clGetProgramInfo_binaries prg binary_size).1)
  return fill binary_size 0 written

/-- The function `get_cached_path` (lines 114-123). -/
def get_cached_path (rt : Runtime) (device_id : cl_device_id) (src args file : Text)
    (line : Int) (function : Text) : Prog Text := do
  call (Call.clGetDeviceInfo device_id)
  let platform := (rt.clGetDeviceInfo_platform device_id).2
  assert (rt.CL_CHECK (rt.clGetDeviceInfo_platform device_id).1)
  let platform_version ← get_platform_info rt platform cl_platform_info.CL_PLATFORM_VERSION
  return cached_path_of rt.std_hash platform_version src args file line function

/-- The function `cl_program_from_string` (lines 154-177), built with the
cache (`CLU_NO_CACHE` not defined). -/
def cl_program_from_string (rt : Runtime) (ctx : cl_context) (device_id : cl_device_id)
    (src args file : Text) (line : Int) (function : Text) : Prog cl_program := do
  let cache_path ← get_cached_path rt device_id src args file line function
  let prg ← load_cached_program rt ctx device_id cache_path
  match prg with
  | some p => return some p
  | none =>
    call (Call.clCreateProgramWithSource ctx (c_str src))
    let prg := (rt.clCreateProgramWithSource ctx (c_str src)).1
    assert (rt.CL_CHECK_ERR prg (rt.clCreateProgramWithSource ctx (c_str src)).2)
    call (Call.clBuildProgram prg device_id (some (c_str args)))
    let err := rt.clBuildProgram prg device_id (some (c_str args))
    if err ≠ 0 then
      cl_print_build_errors rt prg device_id
    assert (err == 0)
    let binary_buf ← get_program_binary rt prg
    let _ ← write_file rt (c_str cache_path) binary_buf
    return prg

/-! ## Derived descriptions of a run, and sample inputs -/

/-- The platform version string `get_cached_path` reads. -/
def platform_version (rt : Runtime) (device_id : cl_device_id) : Text :=
  fill (rt.clGetPlatformInfo_size (rt.clGetDeviceInfo_platform device_id).2
      cl_platform_info.CL_PLATFORM_VERSION).2 '\x00'
    (rt.clGetPlatformInfo_value (rt.clGetDeviceInfo_platform device_id).2
      cl_platform_info.CL_PLATFORM_VERSION
      (rt.clGetPlatformInfo_size (rt.clGetDeviceInfo_platform device_id).2
        cl_platform_info.CL_PLATFORM_VERSION).2).2

/-- The calls `get_cached_path` makes when its checks pass. -/
def cached_path_calls (rt : Runtime) (device_id : cl_device_id) : List Call :=
  [Call.clGetDeviceInfo device_id,
   Call.clGetPlatformInfo (rt.clGetDeviceInfo_platform device_id).2
     cl_platform_info.CL_PLATFORM_VERSION 0,
   Call.clGetPlatformInfo (rt.clGetDeviceInfo_platform device_id).2
     cl_platform_info.CL_PLATFORM_VERSION
     (rt.clGetPlatformInfo_size (rt.clGetDeviceInfo_platform device_id).2
       cl_platform_info.CL_PLATFORM_VERSION).2]

/-- The calls `get_program_binary` makes when its checks pass. -/
def program_binary_calls (prg : cl_program) : List Call :=
  [Call.clGetProgramInfo prg cl_program_info.CL_PROGRAM_NUM_DEVICES,
   Call.clGetProgramInfo prg cl_program_info.CL_PROGRAM_BINARY_SIZES,
   Call.clGetProgramInfo prg cl_program_info.CL_PROGRAM_BINARIES]

/-- The build log as `cl_print_build_errors` holds it: a zeroed buffer of
`log_size + 1` characters into which the runtime wrote the log. -/
def build_log (rt : Runtime) (prg : cl_program) (device : cl_device_id) : Text :=
  fill (rt.clGetProgramBuildInfo_log_size prg device + 1) '\x00'
    (rt.clGetProgramBuildInfo_log prg device (rt.clGetProgramBuildInfo_log_size prg device + 1))

/-- The calls `cl_print_build_errors` makes: it fetches the status and the
log, and prints them. -/
def build_errors_calls (rt : Runtime) (prg : cl_program) (device : cl_device_id) : List Call :=
  [Call.clGetProgramBuildInfo prg device cl_program_build_info.CL_PROGRAM_BUILD_STATUS
     sizeof_cl_build_status,
   Call.clGetProgramBuildInfo prg device cl_program_build_info.CL_PROGRAM_BUILD_LOG 0,
   Call.clGetProgramBuildInfo prg device cl_program_build_info.CL_PROGRAM_BUILD_LOG
     (rt.clGetProgramBuildInfo_log_size prg device + 1),
   Call.printf (build_errors_text (rt.clGetProgramBuildInfo_status prg device)
     (build_log rt prg device))]

/-- The checks of `clutil.h` read as assertions of success: `CL_CHECK` lets
exactly the status 0 pass, `CL_CHECK_ERR` exactly a non-NULL object with the
error code 0. -/
def Runtime.ChecksAssert (rt : Runtime) : Prop :=
  (∀ status, rt.CL_CHECK status = decide (status = 0)) ∧
  (∀ prg err, rt.CL_CHECK_ERR prg err = (prg.isSome && decide (err = 0)))

/-- A sample hash function standing for `std::hash<std::string>`. -/
def sample_hash (t : Text) : Nat := t.foldl (fun h c => h * 31 + c.toNat) 7

/-- A sample runtime with one platform, version `OpenCL 2.0`: source
compiles to the program 1 with the binary `[1, 2, 3]`; that binary loads as
the program 2; the binary `[9]` loads as the program 3 and then fails to
build; any other binary is refused by `clCreateProgramWithBinary`. The source
`bad` fails to build. The two checks are taken as parameters. -/
def sample_runtime (check : Int → Bool) (check_err : cl_program → Int → Bool) : Runtime where
  CL_CHECK := check
  CL_CHECK_ERR := check_err
  std_hash := sample_hash
  write_file_ok := fun _ => true
  clGetDeviceInfo_platform := fun _ => (0, 7)
  clGetPlatformInfo_size := fun _ _ => (0, 11)
  clGetPlatformInfo_value := fun _ _ _ => (0, "OpenCL 2.0\x00".toList)
  clCreateProgramWithBinary := fun _ _ bin =>
    if bin = [1, 2, 3] then (some 2, 0) else if bin = [9] then (some 3, 0) else (none, -42)
  clBuildProgram := fun prg _ options =>
    if prg = some 3 then -42 else if prg = some 4 ∧ options.isSome then -11 else 0
  clCreateProgramWithSource := fun _ src => if src = "bad".toList then (some 4, 0) else (some 1, 0)
  clGetProgramBuildInfo_status := fun _ _ => -2
  clGetProgramBuildInfo_log_size := fun _ _ => 5
  clGetProgramBuildInfo_log := fun _ _ _ => "error".toList
  clGetProgramInfo_num_devices := fun _ => (0, 1)
  clGetProgramInfo_binary_sizes := fun _ => (0, 3)
  clGetProgramInfo_binaries := fun _ _ => (0, [1, 2, 3])

/-- The sample runtime with the checks read as assertions of success. -/
def asserting_runtime : Runtime :=
  sample_runtime (fun status => decide (status = 0))
    (fun prg err => prg.isSome && decide (err = 0))

/-- The sample runtime with checks that let every call pass. -/
def unchecked_runtime : Runtime :=
  sample_runtime (fun _ => true) (fun _ _ => true)

/-- The sample request: source `kernel void k()\x7b\x7d` at `foo.c`, line 10,
function `bar`. -/
def sample_src : Text := "kernel void k()\x7b\x7d".toList

/-- The cache path of the sample request on the sample runtime. -/
def sample_path : Text := cached_path_of sample_hash "OpenCL 2.0".toList sample_src [] "foo.c".toList 10 "bar".toList

/-- A state with an empty store and no call made. -/
def empty_state : State := { files := fun _ => none, calls := [] }

/-- A state whose store holds the bytes `data` at `path`. -/
def state_with_file (path : Text) (data : Bytes) : State :=
  { files := fun p => if p = path then some data else none, calls := [] }

/-! ## Digits and formatting: supporting facts -/

theorem digitVal_digitChar : ∀ d, d < 16 → digitVal (Nat.digitChar d) = d := by decide

theorem digitChar_mem_hex : ∀ d, d < 16 → Nat.digitChar d ∈ "0123456789abcdef".toList := by decide

theorem toDigitsCore_acc (b : Nat) : ∀ (f n : Nat) (ds : List Char),
    Nat.toDigitsCore b f n ds = Nat.toDigitsCore b f n [] ++ ds := by
  intro f
  induction f with
  | zero => intro n ds; simp [Nat.toDigitsCore]
  | succ f ih =>
    intro n ds
    simp only [Nat.toDigitsCore]
    split
    · simp
    · rw [ih (n / b) (_ :: ds), ih (n / b) [_]]; simp

theorem toDigitsCore_fuel (b : Nat) (hb : 2 ≤ b) : ∀ (f g n : Nat) (ds : List Char),
    n < f → n < g → Nat.toDigitsCore b f n ds = Nat.toDigitsCore b g n ds := by
  intro f
  induction f with
  | zero => intro g n ds h; omega
  | succ f ih =>
    intro g n ds hf hg
    cases g with
    | zero => omega
    | succ g =>
      simp only [Nat.toDigitsCore]
      split
      · rfl
      · rename_i h0
        have hpos : 0 < n := by
          rcases Nat.eq_zero_or_pos n with h | h
          · subst h; simp at h0
          · exact h
        have hlt : n / b < n := Nat.div_lt_self hpos hb
        exact ih g (n / b) _ (by omega) (by omega)

theorem toDigits_small (b n : Nat) (h : n < b) :
    Nat.toDigits b n = [Nat.digitChar n] := by
  simp [Nat.toDigits, Nat.toDigitsCore, Nat.div_eq_of_lt h, Nat.mod_eq_of_lt h]

theorem toDigits_step (b n : Nat) (hb : 2 ≤ b) (h : b ≤ n) :
    Nat.toDigits b n = Nat.toDigits b (n / b) ++ [Nat.digitChar (n % b)] := by
  have hpos : 0 < n := by omega
  have hlt : n / b < n := Nat.div_lt_self hpos hb
  have h0 : n / b ≠ 0 := by
    have : 0 < n / b := Nat.div_pos h (by omega)
    omega
  have e : Nat.toDigits b n = if n / b = 0 then [Nat.digitChar (n % b)]
      else Nat.toDigitsCore b n (n / b) [Nat.digitChar (n % b)] := rfl
  rw [e, if_neg h0, toDigitsCore_acc,
    toDigitsCore_fuel b hb n (n / b + 1) (n / b) [] hlt (by omega)]
  rfl

theorem textValue_snoc (b : Nat) (t : Text) (c : Char) :
    textValue b (t ++ [c]) = textValue b t * b + digitVal c := by
  simp [textValue, List.foldl_append]

theorem textValue_toDigits (b : Nat) (hb : 2 ≤ b) (hb16 : b ≤ 16) :
    ∀ n, textValue b (Nat.toDigits b n) = n := by
  intro n
  induction n using Nat.strong_induction_on with
  | _ n ih =>
    rcases Nat.lt_or_ge n b with h | h
    · rw [toDigits_small b n h]
      simp [textValue, digitVal_digitChar n (by omega)]
    · rw [toDigits_step b n hb h, textValue_snoc,
        ih (n / b) (Nat.div_lt_self (by omega) hb),
        digitVal_digitChar _ (by have := Nat.mod_lt n (show 0 < b by omega); omega)]
      exact Nat.div_add_mod' n b

theorem toDigits_injective (b : Nat) (hb : 2 ≤ b) (hb16 : b ≤ 16) (m n : Nat)
    (h : Nat.toDigits b m = Nat.toDigits b n) : m = n := by
  have := congrArg (textValue b) h
  rwa [textValue_toDigits b hb hb16, textValue_toDigits b hb hb16] at this

theorem toDigits_mem_hex (b : Nat) (hb : 2 ≤ b) (hb16 : b ≤ 16) :
    ∀ n, ∀ c ∈ Nat.toDigits b n, c ∈ "0123456789abcdef".toList := by
  intro n
  induction n using Nat.strong_induction_on with
  | _ n ih =>
    intro c hc
    rcases Nat.lt_or_ge n b with h | h
    · rw [toDigits_small b n h] at hc
      simp only [List.mem_singleton] at hc
      subst hc
      exact digitChar_mem_hex n (by omega)
    · rw [toDigits_step b n hb h, List.mem_append] at hc
      rcases hc with hc | hc
      · exact ih (n / b) (Nat.div_lt_self (by omega) hb) c hc
      · simp only [List.mem_singleton] at hc
        subst hc
        exact digitChar_mem_hex _ (by have := Nat.mod_lt n (show 0 < b by omega); omega)

theorem textValue_zeros (b k : Nat) (t : Text) :
    textValue b (List.replicate k '0' ++ t) = textValue b t := by
  induction k with
  | zero => simp
  | succ k ih =>
    have h0 : digitVal '0' = 0 := by decide
    simp only [textValue, List.replicate_succ, List.cons_append, List.foldl_cons, h0] at ih ⊢
    simpa using ih

theorem textValue_fmt_016x (n : Nat) : textValue 16 (fmt_016x n) = n := by
  rw [fmt_016x, List.leftpad, textValue_zeros, textValue_toDigits 16 (by omega) (by omega)]

theorem fmt_016x_length (n : Nat) (h : n < 2 ^ 64) : (fmt_016x n).length = 16 := by
  have hlen : (Nat.toDigits 16 n).length ≤ 16 :=
    Nat.toDigitsCore_length 16 (by omega) (n + 1) n 16 (by simpa using h) (by omega)
  rw [fmt_016x, List.leftpad_length]
  omega

theorem fmt_016x_mem_hex (n : Nat) : ∀ c ∈ fmt_016x n, c ∈ "0123456789abcdef".toList := by
  intro c hc
  rw [fmt_016x, List.leftpad, List.mem_append] at hc
  rcases hc with hc | hc
  · rw [List.mem_replicate] at hc
    rw [hc.2]; decide
  · exact toDigits_mem_hex 16 (by omega) (by omega) n c hc

theorem c_str_of_nul_free (s : Text) (h : '\x00' ∉ s) : c_str s = s := by
  rw [c_str, List.takeWhile_eq_self_iff]
  intro c hc
  have : c ≠ '\x00' := fun e => h (e ▸ hc)
  simpa using this

theorem c_str_append_zeros (t : Text) (k : Nat) :
    c_str (t ++ List.replicate k '\x00') = c_str t := by
  induction t with
  | nil => cases k <;> simp [c_str, List.replicate_succ]
  | cons c t ih =>
    by_cases hc : c = '\x00'
    · simp [c_str, hc]
    · simp only [c_str, List.cons_append] at ih ⊢
      simp [List.takeWhile_cons, hc, ih]

theorem c_str_fill (size : Nat) (written : Text) :
    c_str (fill size '\x00' written) = c_str (written.take size) := by
  rw [fill, List.take_append_eq_append_take, List.take_replicate, c_str_append_zeros]

theorem hash_buf_eq (pv file : Text) (line : Int) (fn src args : Text) :
    hash_buf pv file line fn src args
      = c_str pv ++ (c_str file ++ (fmt_d line ++ (c_str fn ++ c_str src))) := by
  have e : hash_buf_format
      = [Directive.s, Directive.s, Directive.d, Directive.s, Directive.s] := by decide
  simp [hash_buf, e, string_format]

theorem cache_file_name_eq (h : Nat) :
    cache_file_name h = "/tmp/clcache/".toList ++ (fmt_016x h ++ ".clb".toList) := by
  have e : cache_path_format
      = ("/tmp/clcache/".toList.map fun c => Directive.lit [c]) ++ Directive.x016 ::
          (".clb".toList.map fun c => Directive.lit [c]) := by decide
  simp [cache_file_name, e, string_format]

theorem build_errors_text_eq (status : Int) (log : Text) :
    build_errors_text status log
      = "build failed; status=".toList ++ fmt_d status ++ ", log:\n".toList ++ c_str log
          ++ "\n".toList := by
  have e : parse_format "build failed; status=%d, log:\n%s\n".toList
      = ("build failed; status=".toList.map fun c => Directive.lit [c]) ++ Directive.d ::
          ((", log:\n".toList.map fun c => Directive.lit [c]) ++ Directive.s ::
            ("\n".toList.map fun c => Directive.lit [c])) := by decide
  simp [build_errors_text, e, string_format]

/-! ## Running the program -/

theorem pure_apply {α : Type} (a : α) (s : State) : (pure a : Prog α) s = Run.ret a s := rfl

theorem bind_apply {α β : Type} (m : Prog α) (f : α → Prog β) (s : State) :
    (m >>= f) s = (match m s with
      | Run.ret a s1 => f a s1
      | Run.abort s1 => Run.abort s1) := rfl

theorem call_apply (c : Call) (s : State) :
    call c s = Run.ret () { s with calls := s.calls ++ [c] } := rfl

theorem assert_true (s : State) : assert true s = Run.ret () s := rfl

theorem assert_false (s : State) : assert false s = Run.abort s := rfl

theorem get_platform_info_ret (rt : Runtime) (platform : cl_platform_id)
    (param_name : cl_platform_info) (s : State)
    (h1 : rt.CL_CHECK (rt.clGetPlatformInfo_size platform param_name).1 = true)
    (h2 : rt.CL_CHECK (rt.clGetPlatformInfo_value platform param_name
      (rt.clGetPlatformInfo_size platform param_name).2).1 = true) :
    get_platform_info rt platform param_name s
      = Run.ret (fill (rt.clGetPlatformInfo_size platform param_name).2 '\x00'
          (rt.clGetPlatformInfo_value platform param_name
            (rt.clGetPlatformInfo_size platform param_name).2).2)
          { s with calls := s.calls ++
              [Call.clGetPlatformInfo platform param_name 0,
               Call.clGetPlatformInfo platform param_name
                 (rt.clGetPlatformInfo_size platform param_name).2] } := by
  simp [get_platform_info, bind_apply, call_apply, h1, h2, assert_true, pure_apply]

theorem get_cached_path_cases (rt : Runtime) (device_id : cl_device_id) (src args file : Text)
    (line : Int) (function : Text) (s : State) :
    (get_cached_path rt device_id src args file line function s).result = none ∨
    ∀ t : State, get_cached_path rt device_id src args file line function t
      = Run.ret (cached_path_of rt.std_hash (platform_version rt device_id) src args file
          line function)
          { t with calls := t.calls ++ cached_path_calls rt device_id } := by
  cases h0 : rt.CL_CHECK (rt.clGetDeviceInfo_platform device_id).1
  · left
    simp [get_cached_path, bind_apply, call_apply, h0, assert_false, Run.result]
  · cases h1 : rt.CL_CHECK (rt.clGetPlatformInfo_size (rt.clGetDeviceInfo_platform device_id).2
        cl_platform_info.CL_PLATFORM_VERSION).1
    · left
      simp [get_cached_path, get_platform_info, bind_apply, call_apply, h0, h1, assert_true,
        assert_false, Run.result]
    · cases h2 : rt.CL_CHECK (rt.clGetPlatformInfo_value (rt.clGetDeviceInfo_platform device_id).2
          cl_platform_info.CL_PLATFORM_VERSION
          (rt.clGetPlatformInfo_size (rt.clGetDeviceInfo_platform device_id).2
            cl_platform_info.CL_PLATFORM_VERSION).2).1
      · left
        simp [get_cached_path, get_platform_info, bind_apply, call_apply, h0, h1, h2,
          assert_true, assert_false, Run.result]
      · right
        intro t
        simp [get_cached_path, bind_apply, call_apply, h0, assert_true, pure_apply,
          get_platform_info_ret rt _ _ _ h1 h2, platform_version, cached_path_calls]

theorem get_cached_path_ret (rt : Runtime) (device_id : cl_device_id) (src args file : Text)
    (line : Int) (function : Text) (s : State) (path : Text)
    (h : (get_cached_path rt device_id src args file line function s).result = some path) :
    path = cached_path_of rt.std_hash (platform_version rt device_id) src args file line function ∧
    ∀ t : State, get_cached_path rt device_id src args file line function t
      = Run.ret path { t with calls := t.calls ++ cached_path_calls rt device_id } := by
  rcases get_cached_path_cases rt device_id src args file line function s with h0 | h0
  · rw [h0] at h; cases h
  · have hs := h0 s
    rw [hs] at h
    simp only [Run.result, Option.some.injEq] at h
    subst h
    exact ⟨rfl, h0⟩

theorem get_program_binary_cases (rt : Runtime) (prg : cl_program) (s : State) :
    (get_program_binary rt prg s).result = none ∨
    ∀ t : State, get_program_binary rt prg t
      = Run.ret (fill (rt.clGetProgramInfo_binary_sizes prg).2 0
          (rt.clGetProgramInfo_binaries prg (rt.clGetProgramInfo_binary_sizes prg).2).2)
          { t with calls := t.calls ++ program_binary_calls prg } := by
  cases h0 : rt.CL_CHECK (rt.clGetProgramInfo_num_devices prg).1
  · left
    simp [get_program_binary, bind_apply, call_apply, h0, assert_false, Run.result]
  · cases h1 : ((rt.clGetProgramInfo_num_devices prg).2 == 1)
    · left
      simp [get_program_binary, bind_apply, call_apply, h0, h1, assert_true, assert_false,
        Run.result]
    · cases h2 : rt.CL_CHECK (rt.clGetProgramInfo_binary_sizes prg).1
      · left
        simp [get_program_binary, bind_apply, call_apply, h0, h1, h2, assert_true, assert_false,
          Run.result]
      · cases h3 : decide ((rt.clGetProgramInfo_binary_sizes prg).2 > 0)
        · left
          simp [get_program_binary, bind_apply, call_apply, h0, h1, h2, h3, assert_true,
            assert_false, Run.result]
        · cases h4 : rt.CL_CHECK (rt.clGetProgramInfo_binaries prg
              (rt.clGetProgramInfo_binary_sizes prg).2).1
          · left
            simp [get_program_binary, bind_apply, call_apply, h0, h1, h2, h3, h4, assert_true,
              assert_false, Run.result]
          · right
            intro t
            simp [get_program_binary, bind_apply, call_apply, h0, h1, h2, h3, h4, assert_true,
              pure_apply, program_binary_calls]

theorem get_program_binary_ret (rt : Runtime) (prg : cl_program) (s : State) (bin : Bytes)
    (h : (get_program_binary rt prg s).result = some bin) :
    ∀ t : State, get_program_binary rt prg t
      = Run.ret bin { t with calls := t.calls ++ program_binary_calls prg } := by
  rcases get_program_binary_cases rt prg s with h0 | h0
  · rw [h0] at h; cases h
  · have hs := h0 s
    rw [hs] at h
    simp only [Run.result, Option.some.injEq] at h
    subst h
    exact h0

theorem cl_print_build_errors_apply (rt : Runtime) (prg : cl_program) (device : cl_device_id)
    (s : State) :
    cl_print_build_errors rt prg device s
      = Run.ret () { s with calls := s.calls ++ build_errors_calls rt prg device } := by
  simp [cl_print_build_errors, bind_apply, call_apply, build_errors_calls, build_log]

theorem c_str_cache_file_name (h : Nat) : c_str (cache_file_name h) = cache_file_name h := by
  apply c_str_of_nul_free
  rw [cache_file_name_eq]
  intro hmem
  simp only [List.mem_append] at hmem
  rcases hmem with hmem | hmem | hmem
  · revert hmem; decide
  · have := fmt_016x_mem_hex h _ hmem
    revert this; decide
  · revert hmem; decide

/-! ## Key derivation: supporting facts -/

theorem hash_buf_args_irrelevant (pv file : Text) (line : Int) (fn src a1 a2 : Text) :
    hash_buf pv file line fn src a1 = hash_buf pv file line fn src a2 := by
  rw [hash_buf_eq, hash_buf_eq]

theorem fmt_d_injective (m n : Int) (h : fmt_d m = fmt_d n) : m = n := by
  have hminus : ∀ k t, Nat.toDigits 10 k ≠ '-' :: t := by
    intro k t e
    have hm : '-' ∈ Nat.toDigits 10 k := by rw [e]; exact List.mem_cons_self _ _
    have := toDigits_mem_hex 10 (by omega) (by omega) k _ hm
    revert this; decide
  cases m with
  | ofNat a =>
    cases n with
    | ofNat b =>
      simp only [fmt_d] at h
      rw [toDigits_injective 10 (by omega) (by omega) a b h]
    | negSucc b =>
      simp only [fmt_d] at h
      exact absurd h (hminus a _)
  | negSucc a =>
    cases n with
    | ofNat b =>
      simp only [fmt_d] at h
      exact absurd h.symm (hminus b _)
    | negSucc b =>
      simp only [fmt_d, List.cons.injEq, true_and] at h
      have := toDigits_injective 10 (by omega) (by omega) _ _ h
      have hab : a = b := by omega
      rw [hab]

theorem hash_buf_platform_ne (pv pv' file : Text) (line : Int) (fn src args : Text)
    (h : c_str pv ≠ c_str pv') :
    hash_buf pv file line fn src args ≠ hash_buf pv' file line fn src args := by
  rw [hash_buf_eq, hash_buf_eq]
  intro e
  exact h (List.append_left_inj _ |>.mp e)

theorem hash_buf_src_ne (pv file : Text) (line : Int) (fn src src' args : Text)
    (h : c_str src ≠ c_str src') :
    hash_buf pv file line fn src args ≠ hash_buf pv file line fn src' args := by
  rw [hash_buf_eq, hash_buf_eq]
  intro e
  simp only [List.append_cancel_left_eq] at e
  exact h e

theorem hash_buf_line_ne (pv file : Text) (line line' : Int) (fn src args : Text)
    (h : line ≠ line') :
    hash_buf pv file line fn src args ≠ hash_buf pv file line' fn src args := by
  rw [hash_buf_eq, hash_buf_eq]
  intro e
  simp only [List.append_cancel_left_eq] at e
  exact h (fmt_d_injective _ _ (List.append_left_inj _ |>.mp e))

theorem cache_file_name_injective (h h' : Nat) (e : cache_file_name h = cache_file_name h') :
    h = h' := by
  rw [cache_file_name_eq, cache_file_name_eq] at e
  simp only [List.append_cancel_left_eq] at e
  have e2 := List.append_left_inj _ |>.mp e
  have := congrArg (textValue 16) e2
  rwa [textValue_fmt_016x, textValue_fmt_016x] at this

theorem c_str_cached_path (std_hash : Text → Nat) (pv src args file : Text) (line : Int)
    (fn : Text) :
    c_str (cached_path_of std_hash pv src args file line fn)
      = cached_path_of std_hash pv src args file line fn :=
  c_str_cache_file_name _

/-! ## Key derivation: the claims -/

/-- C1 (the code departs from the claim): the build arguments do not reach
the hashed string. With source `kernel void k()\x7b\x7d` and call site
(`foo.c`, 10, `bar`), the arguments `-DX=1` and the empty arguments give the
same hashed string and `get_cached_path` behaves the same for both, whatever
the platform, the hash function and the state. -/
theorem C1_build_args_not_hashed (rt : Runtime) (device_id : cl_device_id) (pv : Text)
    (s : State) :
    hash_buf pv "foo.c".toList 10 "bar".toList sample_src [] =
      hash_buf pv "foo.c".toList 10 "bar".toList sample_src "-DX=1".toList ∧
    get_cached_path rt device_id sample_src [] "foo.c".toList 10 "bar".toList s =
      get_cached_path rt device_id sample_src "-DX=1".toList "foo.c".toList 10 "bar".toList s := by
  refine ⟨hash_buf_args_irrelevant _ _ _ _ _ _ _, ?_⟩
  simp only [get_cached_path, cached_path_of,
    hash_buf_args_irrelevant _ "foo.c".toList 10 "bar".toList sample_src [] "-DX=1".toList]

/-- C7: for every 64-bit hash value `h` the file name is `/tmp/clcache/`,
then a text of 16 characters taken from `0-9a-f` whose value in base 16 is
`h`, then `.clb`; it has length 33, and two different 64-bit hash values give
two different file names. -/
theorem C7_cache_file_name (h : Nat) (hh : h < 2 ^ 64) :
    (∃ t : Text, t.length = 16 ∧ (∀ c ∈ t, c ∈ "0123456789abcdef".toList) ∧
      textValue 16 t = h ∧
      cache_file_name h = "/tmp/clcache/".toList ++ t ++ ".clb".toList) ∧
    (cache_file_name h).length = 33 ∧
    (∀ h', h' < 2 ^ 64 → h ≠ h' → cache_file_name h ≠ cache_file_name h') := by
  refine ⟨⟨fmt_016x h, fmt_016x_length h hh, fmt_016x_mem_hex h, textValue_fmt_016x h, ?_⟩,
    ?_, ?_⟩
  · rw [cache_file_name_eq, List.append_assoc]
  · rw [cache_file_name_eq, List.length_append, List.length_append, fmt_016x_length h hh]
    rfl
  · intro h' _ hne e
    exact hne (cache_file_name_injective h h' e)

/-- Witness of C7 at the hash value `0xdeadbeef`. -/
theorem C7_cache_file_name_witness :
    (∃ t : Text, t.length = 16 ∧ (∀ c ∈ t, c ∈ "0123456789abcdef".toList) ∧
      textValue 16 t = 0xdeadbeef ∧
      cache_file_name 0xdeadbeef = "/tmp/clcache/".toList ++ t ++ ".clb".toList) ∧
    (cache_file_name 0xdeadbeef).length = 33 ∧
    (∀ h', h' < 2 ^ 64 → 0xdeadbeef ≠ h' →
      cache_file_name 0xdeadbeef ≠ cache_file_name h') :=
  C7_cache_file_name 0xdeadbeef (by decide)

/-- C8: with NUL-free platform version and source strings, changing only the
platform version, only the source text or only the line number changes the
string that `get_cached_path` hashes (for every line number, the negative
ones included); and whenever the 64-bit hash values of two hashed strings
differ, the two cache paths differ. -/
theorem C8_key_diversification (std_hash : Text → Nat) (pv pv' file : Text) (line line' : Int)
    (fn src src' args : Text)
    (hpv : '\x00' ∉ pv) (hpv' : '\x00' ∉ pv') (hsrc : '\x00' ∉ src) (hsrc' : '\x00' ∉ src') :
    (pv ≠ pv' → hash_buf pv file line fn src args ≠ hash_buf pv' file line fn src args) ∧
    (src ≠ src' → hash_buf pv file line fn src args ≠ hash_buf pv file line fn src' args) ∧
    (line ≠ line' → hash_buf pv file line fn src args ≠ hash_buf pv file line' fn src args) ∧
    (∀ (pv2 file2 : Text) (line2 : Int) (fn2 src2 args2 : Text),
      std_hash (hash_buf pv file line fn src args) % 2 ^ 64
        ≠ std_hash (hash_buf pv2 file2 line2 fn2 src2 args2) % 2 ^ 64 →
      cached_path_of std_hash pv src args file line fn
        ≠ cached_path_of std_hash pv2 src2 args2 file2 line2 fn2) := by
  refine ⟨fun h => hash_buf_platform_ne _ _ _ _ _ _ _ ?_,
    fun h => hash_buf_src_ne _ _ _ _ _ _ _ ?_,
    fun h => hash_buf_line_ne _ _ _ _ _ _ _ h, ?_⟩
  · rwa [c_str_of_nul_free pv hpv, c_str_of_nul_free pv' hpv']
  · rwa [c_str_of_nul_free src hsrc, c_str_of_nul_free src' hsrc']
  · intro pv2 file2 line2 fn2 src2 args2 hne e
    exact hne (cache_file_name_injective _ _ e)

/-- Witness of C8: the sample request with platform `OpenCL 2.0` against
`OpenCL 3.0`, the sample source against another one, and line 10 against
line 11. -/
theorem C8_key_diversification_witness :
    '\x00' ∉ "OpenCL 2.0".toList ∧ '\x00' ∉ "OpenCL 3.0".toList ∧ '\x00' ∉ sample_src ∧
    hash_buf "OpenCL 2.0".toList "foo.c".toList 10 "bar".toList sample_src []
      ≠ hash_buf "OpenCL 3.0".toList "foo.c".toList 10 "bar".toList sample_src [] ∧
    hash_buf "OpenCL 2.0".toList "foo.c".toList 10 "bar".toList sample_src []
      ≠ hash_buf "OpenCL 2.0".toList "foo.c".toList 10 "bar".toList
          "kernel void j()\x7b\x7d".toList [] ∧
    hash_buf "OpenCL 2.0".toList "foo.c".toList 10 "bar".toList sample_src []
      ≠ hash_buf "OpenCL 2.0".toList "foo.c".toList 11 "bar".toList sample_src [] :=
  have h := C8_key_diversification sample_hash "OpenCL 2.0".toList "OpenCL 3.0".toList
    "foo.c".toList 10 11 "bar".toList sample_src "kernel void j()\x7b\x7d".toList []
    (by decide) (by decide) (by decide) (by decide)
  ⟨by decide, by decide, by decide, h.1 (by decide), h.2.1 (by decide), h.2.2.1 (by decide)⟩

/-- C9: two different call sites, file `k1` at line 0 and file `k` at line
10 (a digit moved between the file name and the line number), give the same
hashed string and so the same cache path, for every platform version,
function, source, arguments and hash function. -/
theorem C9_concatenation_collision :
    ∃ (file file' : Text) (line line' : Int),
      (file, line) ≠ (file', line') ∧
      ∀ (std_hash : Text → Nat) (pv fn src args : Text),
        hash_buf pv file line fn src args = hash_buf pv file' line' fn src args ∧
        cached_path_of std_hash pv src args file line fn
          = cached_path_of std_hash pv src args file' line' fn := by
  refine ⟨"k1".toList, "k".toList, 0, 10, by decide, ?_⟩
  intro std_hash pv fn src args
  have e : hash_buf pv "k1".toList 0 fn src args = hash_buf pv "k".toList 10 fn src args := by
    rw [hash_buf_eq, hash_buf_eq]
    rfl
  exact ⟨e, by rw [cached_path_of, cached_path_of, e]⟩

/-- The split of `abc` into file `ab` and function `c`, or into file `a` and
function `bc`, does not collide: the digits of the line number stand between
the two fields. -/
theorem file_function_split_distinct :
    hash_buf [] "ab".toList 10 "c".toList [] [] ≠ hash_buf [] "a".toList 10 "bc".toList [] [] := by
  decide

/-- C10 (the code departs from the claim): the table has no entry for -11,
`CL_BUILD_PROGRAM_FAILURE`, so that code gets the fallback name; it is the
only code from -19 to 0 that does. -/
theorem C10_build_failure_unnamed :
    cl_get_error_string (-11) = "CL_UNKNOWN_ERROR" ∧
    (List.range 20).filter
      (fun e => cl_get_error_string (-(e : Int)) == "CL_UNKNOWN_ERROR") = [11] := by
  decide

/-! ## The load / compile / store protocol: the claims -/

/-- C4: when the derived cache file is readable and the backend loads its
bytes (`clCreateProgramWithBinary` returns a program with error code 0 and the
following `clBuildProgram` reports 0), `cl_program_from_string` returns that
program; the calls it makes are those of the key derivation, the read, the
creation from the binary and its build, none of them a compile from source or
a `write_file`; the store is unchanged. -/
theorem C4_cache_hit (rt : Runtime) (ctx : cl_context) (device_id : cl_device_id)
    (src args file : Text) (line : Int) (function : Text) (s : State) (path : Text)
    (bin : Bytes) (p : Nat)
    (hpath : (get_cached_path rt device_id src args file line function s).result = some path)
    (hfile : s.files path = some bin)
    (hload : rt.clCreateProgramWithBinary ctx device_id bin = (some p, 0))
    (hbuild : rt.clBuildProgram (some p) device_id none = 0)
    (hchk : rt.CL_CHECK 0 = true) (hchk_err : rt.CL_CHECK_ERR (some p) 0 = true) :
    ∃ s1 : State,
      cl_program_from_string rt ctx device_id src args file line function s
        = Run.ret (some p) s1 ∧
      s1.files = s.files ∧
      s1.calls = s.calls ++ (cached_path_calls rt device_id ++
        [Call.read_file path, Call.clCreateProgramWithBinary ctx device_id bin,
         Call.clBuildProgram (some p) device_id none]) ∧
      ∀ c ∈ cached_path_calls rt device_id ++
          [Call.read_file path, Call.clCreateProgramWithBinary ctx device_id bin,
           Call.clBuildProgram (some p) device_id none],
        c.isSourceCompile = false ∧ c.isWrite = false := by
  obtain ⟨hp, hrun⟩ := get_cached_path_ret rt device_id src args file line function s path hpath
  have hc : c_str path = path := by rw [hp]; exact c_str_cached_path _ _ _ _ _ _ _
  refine ⟨{ files := s.files, calls := s.calls ++ (cached_path_calls rt device_id ++
        [Call.read_file path, Call.clCreateProgramWithBinary ctx device_id bin,
         Call.clBuildProgram (some p) device_id none]) }, ?_, rfl, rfl, ?_⟩
  · simp [cl_program_from_string, bind_apply, hrun s, load_cached_program, read_file, hc, hfile,
      call_apply, hload, hbuild, hchk, hchk_err, assert_true, pure_apply]
  · intro c hc
    simp only [cached_path_calls, List.mem_append, List.mem_cons, List.mem_singleton,
      List.not_mem_nil, or_false] at hc
    rcases hc with (hc | hc | hc) | hc | hc | hc <;> subst hc <;> exact ⟨rfl, rfl⟩

/-- C5: when the derived cache file cannot be read, the program is created
from the source and its build reports a non-zero error,
`cl_program_from_string` stops at the assertion and returns no program. By
then it has queried the build status (with `sizeof(cl_build_status)`), the
size of the build log and the build log itself, and its last call is the
`printf` of `build failed; status=`, the status, `, log:`, the log the runtime
wrote (up to its first NUL, within the `log_size + 1` characters of the
buffer) and a newline. It has made no call of the binary extraction and no
`write_file`; the store is unchanged and still has no entry at the path. -/
theorem C5_build_failure (rt : Runtime) (ctx : cl_context) (device_id : cl_device_id)
    (src args file : Text) (line : Int) (function : Text) (s : State) (path : Text)
    (prg : cl_program) (err : Int)
    (hpath : (get_cached_path rt device_id src args file line function s).result = some path)
    (hmiss : s.files path = none)
    (hcreate : rt.clCreateProgramWithSource ctx (c_str src) = (prg, err))
    (hchk_err : rt.CL_CHECK_ERR prg err = true)
    (hbuild : rt.clBuildProgram prg device_id (some (c_str args)) ≠ 0) :
    ∃ (s1 : State) (new : List Call),
      cl_program_from_string rt ctx device_id src args file line function s = Run.abort s1 ∧
      (cl_program_from_string rt ctx device_id src args file line function s).result = none ∧
      s1.calls = s.calls ++ new ∧
      new = cached_path_calls rt device_id ++
        [Call.read_file path, Call.clCreateProgramWithSource ctx (c_str src),
         Call.clBuildProgram prg device_id (some (c_str args)),
         Call.clGetProgramBuildInfo prg device_id
           cl_program_build_info.CL_PROGRAM_BUILD_STATUS 4,
         Call.clGetProgramBuildInfo prg device_id cl_program_build_info.CL_PROGRAM_BUILD_LOG 0,
         Call.clGetProgramBuildInfo prg device_id cl_program_build_info.CL_PROGRAM_BUILD_LOG
           (rt.clGetProgramBuildInfo_log_size prg device_id + 1),
         Call.printf
           ("build failed; status=".toList ++
             fmt_d (rt.clGetProgramBuildInfo_status prg device_id) ++ ", log:\n".toList ++
             ((rt.clGetProgramBuildInfo_log prg device_id
                 (rt.clGetProgramBuildInfo_log_size prg device_id + 1)).take
               (rt.clGetProgramBuildInfo_log_size prg device_id + 1)).takeWhile
               (fun c => c != '\x00') ++
             "\n".toList)] ∧
      (∀ c ∈ new, c.isExtraction = false ∧ c.isWrite = false) ∧
      s1.files = s.files ∧ s1.files path = none := by
  obtain ⟨hp, hrun⟩ := get_cached_path_ret rt device_id src args file line function s path hpath
  have hc : c_str path = path := by rw [hp]; exact c_str_cached_path _ _ _ _ _ _ _
  have hb : (rt.clBuildProgram prg device_id (some (c_str args)) == 0) = false := by
    simpa using hbuild
  have hlog : c_str (build_log rt prg device_id)
      = ((rt.clGetProgramBuildInfo_log prg device_id
            (rt.clGetProgramBuildInfo_log_size prg device_id + 1)).take
          (rt.clGetProgramBuildInfo_log_size prg device_id + 1)).takeWhile
          (fun c => c != '\x00') := by
    rw [build_log, c_str_fill]; rfl
  have hrunf : cl_program_from_string rt ctx device_id src args file line function s
      = Run.abort { files := s.files, calls := s.calls ++ (cached_path_calls rt device_id ++
        [Call.read_file path, Call.clCreateProgramWithSource ctx (c_str src),
         Call.clBuildProgram prg device_id (some (c_str args))] ++
        build_errors_calls rt prg device_id) } := by
    simp [cl_program_from_string, bind_apply, hrun s, load_cached_program, read_file, hc, hmiss,
      call_apply, hcreate, hchk_err, hbuild, hb, assert_true, assert_false, pure_apply,
      cl_print_build_errors_apply]
  refine ⟨_, _, hrunf, ?_, rfl, ?_, ?_, rfl, hmiss⟩
  · rw [hrunf]; rfl
  · simp [build_errors_calls, build_errors_text_eq, hlog, sizeof_cl_build_status]
  · intro c hc
    simp only [cached_path_calls, build_errors_calls, List.mem_append, List.mem_cons,
      List.mem_singleton, List.not_mem_nil, or_false] at hc
    rcases hc with ((hc | hc | hc) | hc | hc | hc) | hc | hc | hc | hc <;> subst hc <;>
      exact ⟨rfl, rfl⟩

/-- The value `cl_program_from_string` returns, or the fact that it stops,
is the same for every outcome of `write_file`, on every request and from
every state. -/
theorem write_outcome_irrelevant (rt : Runtime) (ctx : cl_context) (device_id : cl_device_id)
    (src args file : Text) (line : Int) (function : Text) (s : State) (write_ok : Text → Bool) :
    (cl_program_from_string { rt with write_file_ok := write_ok } ctx device_id src args file
      line function s).result
      = (cl_program_from_string rt ctx device_id src args file line function s).result := by
  have e1 : get_cached_path { rt with write_file_ok := write_ok } device_id src args file line
      function = get_cached_path rt device_id src args file line function := rfl
  have e2 : ∀ path, load_cached_program { rt with write_file_ok := write_ok } ctx device_id path
      = load_cached_program rt ctx device_id path := fun _ => rfl
  have e3 : ∀ prg, get_program_binary { rt with write_file_ok := write_ok } prg
      = get_program_binary rt prg := fun _ => rfl
  have e4 : ∀ prg, cl_print_build_errors { rt with write_file_ok := write_ok } prg device_id
      = cl_print_build_errors rt prg device_id := fun _ => rfl
  simp only [cl_program_from_string, bind_apply, e1, e2, e3, e4]
  cases get_cached_path rt device_id src args file line function s with
  | abort s1 => rfl
  | ret path s1 =>
    dsimp only
    cases load_cached_program rt ctx device_id path s1 with
    | abort s2 => rfl
    | ret prg s2 =>
      cases prg with
      | some p => rfl
      | none =>
        dsimp only
        simp only [bind_apply, call_apply]
        cases rt.CL_CHECK_ERR (rt.clCreateProgramWithSource ctx (c_str src)).1
            (rt.clCreateProgramWithSource ctx (c_str src)).2
        · rfl
        · simp only [assert_true]
          by_cases hb : rt.clBuildProgram (rt.clCreateProgramWithSource ctx (c_str src)).1
              device_id (some (c_str args)) = 0
          · simp only [hb, ne_eq, not_true_eq_false, if_false, pure_apply, beq_self_eq_true,
              assert_true, bind_apply]
            cases get_program_binary rt (rt.clCreateProgramWithSource ctx (c_str src)).1 _ with
            | abort s3 => rfl
            | ret bin s3 =>
              simp only [write_file]
              by_cases hw : write_ok (c_str path) = true <;>
                by_cases hr : rt.write_file_ok (c_str path) = true <;>
                simp [hw, hr, Run.result]
          · have hb2 : (rt.clBuildProgram (rt.clCreateProgramWithSource ctx (c_str src)).1
              device_id (some (c_str args)) == 0) = false := by simpa using hb
            simp only [hb, ne_eq, not_false_eq_true, if_true, cl_print_build_errors_apply, hb2,
              assert_false, bind_apply]

/-- C6: when the derived cache file cannot be read, the source compiles
(creation with error code 0, build reporting 0) and the binary is extracted,
`cl_program_from_string` returns the compiled program for every outcome of
`write_file`: the write is its last call, a successful write puts the binary
at the path and a failed one leaves the store as it was. -/
theorem C6_write_outcome_ignored (rt : Runtime) (ctx : cl_context) (device_id : cl_device_id)
    (src args file : Text) (line : Int) (function : Text) (s : State) (path : Text)
    (p : Nat) (bin : Bytes) (write_ok : Text → Bool)
    (hpath : (get_cached_path rt device_id src args file line function s).result = some path)
    (hmiss : s.files path = none)
    (hcreate : rt.clCreateProgramWithSource ctx (c_str src) = (some p, 0))
    (hchk_err : rt.CL_CHECK_ERR (some p) 0 = true)
    (hbuild : rt.clBuildProgram (some p) device_id (some (c_str args)) = 0)
    (hbin : (get_program_binary rt (some p) s).result = some bin) :
    ∃ s1 : State,
      cl_program_from_string { rt with write_file_ok := write_ok } ctx device_id src args file
        line function s = Run.ret (some p) s1 ∧
      s1.calls.getLast? = some (Call.write_file path bin) ∧
      (write_ok path = true → s1.files path = some bin) ∧
      (write_ok path = false → s1.files = s.files) := by
  obtain ⟨hp, hrun⟩ := get_cached_path_ret rt device_id src args file line function s path hpath
  have hc : c_str path = path := by rw [hp]; exact c_str_cached_path _ _ _ _ _ _ _
  have hrun2 : ∀ t : State,
      get_cached_path { rt with write_file_ok := write_ok } device_id src args file line
        function t = Run.ret path { t with calls := t.calls ++ cached_path_calls rt device_id } :=
    hrun
  have hbin1 := get_program_binary_ret rt (some p) s bin hbin
  have hbin2 : ∀ t : State, get_program_binary { rt with write_file_ok := write_ok } (some p) t
      = Run.ret bin { t with calls := t.calls ++ program_binary_calls (some p) } := hbin1
  cases hw : write_ok path
  · refine ⟨{ files := s.files, calls := s.calls ++ (cached_path_calls rt device_id ++
        [Call.read_file path, Call.clCreateProgramWithSource ctx (c_str src),
         Call.clBuildProgram (some p) device_id (some (c_str args))] ++
        program_binary_calls (some p) ++ [Call.write_file path bin]) }, ?_, ?_, ?_, ?_⟩
    · simp [cl_program_from_string, bind_apply, hrun2 s, load_cached_program, read_file, hc,
        hmiss, call_apply, hcreate, hchk_err, hbuild, assert_true, pure_apply, hbin2, write_file,
        hw]
    · simp [← List.append_assoc]
    · intro h; cases h
    · intro _; rfl
  · refine ⟨State.mk (fun q => if q = path then some bin else s.files q)
        (s.calls ++ (cached_path_calls rt device_id ++
        [Call.read_file path, Call.clCreateProgramWithSource ctx (c_str src),
         Call.clBuildProgram (some p) device_id (some (c_str args))] ++
        program_binary_calls (some p) ++ [Call.write_file path bin])), ?_, ?_, ?_, ?_⟩
    · simp [cl_program_from_string, bind_apply, hrun2 s, load_cached_program, read_file, hc,
        hmiss, call_apply, hcreate, hchk_err, hbuild, assert_true, pure_apply, hbin2, write_file,
        hw]
    · simp [← List.append_assoc]
    · intro _; simp
    · intro h; cases h

/-- C3: from a store with no entry at the derived path, with a backend that
compiles the source and hands out its binary (the outcome of the extraction
does not depend on the state it starts from), a write that succeeds and a
backend that loads the binary back, two runs of `cl_program_from_string` on the same request make
exactly one compile from source in total: the first run creates and builds
the program from source and writes the extracted binary at the path; the
second run reads that path, loads the binary and returns, with no compile
from source and no write. -/
theorem C3_compile_once (rt : Runtime) (ctx : cl_context) (device_id : cl_device_id)
    (src args file : Text) (line : Int) (function : Text) (s : State) (path : Text)
    (p q : Nat) (bin : Bytes)
    (hpath : (get_cached_path rt device_id src args file line function s).result = some path)
    (hmiss : s.files path = none)
    (hcreate : rt.clCreateProgramWithSource ctx (c_str src) = (some p, 0))
    (hbuild : rt.clBuildProgram (some p) device_id (some (c_str args)) = 0)
    (hbin : (get_program_binary rt (some p) s).result = some bin)
    (hwrite : rt.write_file_ok path = true)
    (hload : rt.clCreateProgramWithBinary ctx device_id bin = (some q, 0))
    (hbuild_bin : rt.clBuildProgram (some q) device_id none = 0)
    (hchk : rt.CL_CHECK 0 = true)
    (hchk_p : rt.CL_CHECK_ERR (some p) 0 = true)
    (hchk_q : rt.CL_CHECK_ERR (some q) 0 = true) :
    ∃ (s1 s2 : State) (first second : List Call),
      cl_program_from_string rt ctx device_id src args file line function s
        = Run.ret (some p) s1 ∧
      cl_program_from_string rt ctx device_id src args file line function s1
        = Run.ret (some q) s2 ∧
      s1.calls = s.calls ++ first ∧ s2.calls = s1.calls ++ second ∧
      first = cached_path_calls rt device_id ++
        [Call.read_file path, Call.clCreateProgramWithSource ctx (c_str src),
         Call.clBuildProgram (some p) device_id (some (c_str args))] ++
        program_binary_calls (some p) ++ [Call.write_file path bin] ∧
      second = cached_path_calls rt device_id ++
        [Call.read_file path, Call.clCreateProgramWithBinary ctx device_id bin,
         Call.clBuildProgram (some q) device_id none] ∧
      (first ++ second).countP Call.isCreateFromSource = 1 ∧
      (first ++ second).countP Call.isBuildWithOptions = 1 ∧
      (∀ c ∈ second, c.isSourceCompile = false ∧ c.isWrite = false) ∧
      s1.files path = some bin ∧ (∀ other, other ≠ path → s1.files other = s.files other) ∧
      s2.files = s1.files := by
  obtain ⟨hp, hrun⟩ := get_cached_path_ret rt device_id src args file line function s path hpath
  have hc : c_str path = path := by rw [hp]; exact c_str_cached_path _ _ _ _ _ _ _
  have hbin1 := get_program_binary_ret rt (some p) s bin hbin
  refine ⟨State.mk (fun o => if o = path then some bin else s.files o)
      (s.calls ++ (cached_path_calls rt device_id ++
        [Call.read_file path, Call.clCreateProgramWithSource ctx (c_str src),
         Call.clBuildProgram (some p) device_id (some (c_str args))] ++
        program_binary_calls (some p) ++ [Call.write_file path bin])),
    State.mk (fun o => if o = path then some bin else s.files o)
      (s.calls ++ (cached_path_calls rt device_id ++
        [Call.read_file path, Call.clCreateProgramWithSource ctx (c_str src),
         Call.clBuildProgram (some p) device_id (some (c_str args))] ++
        program_binary_calls (some p) ++ [Call.write_file path bin]) ++
       (cached_path_calls rt device_id ++
        [Call.read_file path, Call.clCreateProgramWithBinary ctx device_id bin,
         Call.clBuildProgram (some q) device_id none])),
    _, _, ?_, ?_, rfl, rfl, rfl, rfl, ?_, ?_, ?_, ?_, ?_, rfl⟩
  · simp [cl_program_from_string, bind_apply, hrun s, load_cached_program, read_file, hc,
      hmiss, call_apply, hcreate, hchk_p, hbuild, assert_true, pure_apply, hbin1, write_file,
      hwrite]
  · simp [cl_program_from_string, bind_apply, hrun, load_cached_program, read_file, hc,
      call_apply, hload, hchk_q, hbuild_bin, hchk, assert_true, pure_apply]
  · simp [cached_path_calls, program_binary_calls, List.countP_cons, Call.isCreateFromSource]
  · simp [cached_path_calls, program_binary_calls, List.countP_cons, Call.isBuildWithOptions]
  · intro c hc
    simp only [cached_path_calls, List.mem_append, List.mem_cons, List.mem_singleton,
      List.not_mem_nil, or_false] at hc
    rcases hc with (hc | hc | hc) | hc | hc | hc <;> subst hc <;> exact ⟨rfl, rfl⟩
  · simp
  · intro other hne
    simp [hne]

/-- C2 (as amended): with `CL_CHECK` and `CL_CHECK_ERR` read as assertions of
success, when the derived cache file is readable but the backend rejects its
bytes (`clCreateProgramWithBinary` returns NULL or a non-zero error code, or
the following `clBuildProgram` reports a non-zero status),
`cl_program_from_string` stops at the failed check: it returns no program,
makes no compile from source and no `write_file`, and leaves the store
unchanged. -/
theorem C2_rejected_binary_stops (rt : Runtime) (ctx : cl_context) (device_id : cl_device_id)
    (src args file : Text) (line : Int) (function : Text) (s : State) (path : Text)
    (bin : Bytes)
    (hassert : rt.ChecksAssert)
    (hpath : (get_cached_path rt device_id src args file line function s).result = some path)
    (hfile : s.files path = some bin)
    (hreject : (rt.clCreateProgramWithBinary ctx device_id bin).1 = none ∨
      (rt.clCreateProgramWithBinary ctx device_id bin).2 ≠ 0 ∨
      rt.clBuildProgram (rt.clCreateProgramWithBinary ctx device_id bin).1 device_id none ≠ 0) :
    ∃ (s1 : State) (new : List Call),
      cl_program_from_string rt ctx device_id src args file line function s = Run.abort s1 ∧
      (cl_program_from_string rt ctx device_id src args file line function s).result = none ∧
      s1.calls = s.calls ++ new ∧
      (∀ c ∈ new, c.isSourceCompile = false ∧ c.isWrite = false) ∧
      s1.files = s.files := by
  obtain ⟨hp, hrun⟩ := get_cached_path_ret rt device_id src args file line function s path hpath
  have hc : c_str path = path := by rw [hp]; exact c_str_cached_path _ _ _ _ _ _ _
  obtain ⟨hck, hcke⟩ := hassert
  have hmem1 : ∀ c ∈ cached_path_calls rt device_id ++
      [Call.read_file path, Call.clCreateProgramWithBinary ctx device_id bin],
      c.isSourceCompile = false ∧ c.isWrite = false := by
    intro c hc
    simp only [cached_path_calls, List.mem_append, List.mem_cons, List.mem_singleton,
      List.not_mem_nil, or_false] at hc
    rcases hc with (hc | hc | hc) | hc | hc <;> subst hc <;> exact ⟨rfl, rfl⟩
  cases hce : rt.CL_CHECK_ERR (rt.clCreateProgramWithBinary ctx device_id bin).1
      (rt.clCreateProgramWithBinary ctx device_id bin).2
  · have hrunf : cl_program_from_string rt ctx device_id src args file line function s
        = Run.abort { files := s.files, calls := s.calls ++ (cached_path_calls rt device_id ++
          [Call.read_file path, Call.clCreateProgramWithBinary ctx device_id bin]) } := by
      simp [cl_program_from_string, bind_apply, hrun s, load_cached_program, read_file, hc,
        hfile, call_apply, hce, assert_false]
    exact ⟨_, _, hrunf, by rw [hrunf]; rfl, rfl, hmem1, rfl⟩
  · have hb : rt.CL_CHECK (rt.clBuildProgram (rt.clCreateProgramWithBinary ctx device_id bin).1
        device_id none) = false := by
      rw [hcke] at hce
      simp only [Bool.and_eq_true, decide_eq_true_eq] at hce
      rcases hreject with h | h | h
      · rw [h] at hce; simp at hce
      · exact absurd hce.2 h
      · rw [hck]; simpa using h
    have hrunf : cl_program_from_string rt ctx device_id src args file line function s
        = Run.abort { files := s.files, calls := s.calls ++ (cached_path_calls rt device_id ++
          [Call.read_file path, Call.clCreateProgramWithBinary ctx device_id bin] ++
          [Call.clBuildProgram (rt.clCreateProgramWithBinary ctx device_id bin).1
            device_id none]) } := by
      simp [cl_program_from_string, bind_apply, hrun s, load_cached_program, read_file, hc,
        hfile, call_apply, hce, hb, assert_true, assert_false]
    refine ⟨_, _, hrunf, by rw [hrunf]; rfl, rfl, ?_, rfl⟩
    intro c hc
    rw [List.mem_append] at hc
    rcases hc with hc | hc
    · exact hmem1 c hc
    · simp only [List.mem_singleton] at hc
      subst hc
      exact ⟨rfl, rfl⟩

/-- C2 (counterexample): on the sample runtime the cache file of the sample
request holds the bytes `[9]`, which `clCreateProgramWithBinary` accepts as
the program 3 and whose `clBuildProgram` reports -42, while the source itself
would compile to the program 1. With the checks read as assertions the call
returns no program; with checks that let every call pass it returns the
program 3, whose build failed. In both cases no compile from source and no
`write_file` is made and the file keeps the bytes `[9]`. With the bytes `[8]`,
refused by `clCreateProgramWithBinary`, the asserting call returns no program
either. -/
theorem C2_counterexample :
    (get_cached_path asserting_runtime 0 sample_src [] "foo.c".toList 10 "bar".toList
      (state_with_file sample_path [9])).result = some sample_path ∧
    (state_with_file sample_path [9]).files sample_path = some [9] ∧
    asserting_runtime.clCreateProgramWithBinary 0 0 [9] = (some 3, 0) ∧
    asserting_runtime.clBuildProgram (some 3) 0 none = -42 ∧
    asserting_runtime.clCreateProgramWithSource 0 (c_str sample_src) = (some 1, 0) ∧
    asserting_runtime.clBuildProgram (some 1) 0 (some []) = 0 ∧
    (cl_program_from_string asserting_runtime 0 0 sample_src [] "foo.c".toList 10 "bar".toList
      (state_with_file sample_path [9])).result = none ∧
    (cl_program_from_string asserting_runtime 0 0 sample_src [] "foo.c".toList 10 "bar".toList
      (state_with_file sample_path [9])).state.calls.any
        (fun c => c.isSourceCompile || c.isWrite) = false ∧
    (cl_program_from_string asserting_runtime 0 0 sample_src [] "foo.c".toList 10 "bar".toList
      (state_with_file sample_path [9])).state.files sample_path = some [9] ∧
    (cl_program_from_string unchecked_runtime 0 0 sample_src [] "foo.c".toList 10 "bar".toList
      (state_with_file sample_path [9])).result = some (some 3) ∧
    (cl_program_from_string unchecked_runtime 0 0 sample_src [] "foo.c".toList 10 "bar".toList
      (state_with_file sample_path [9])).state.calls.any
        (fun c => c.isSourceCompile || c.isWrite) = false ∧
    (cl_program_from_string unchecked_runtime 0 0 sample_src [] "foo.c".toList 10 "bar".toList
      (state_with_file sample_path [9])).state.files sample_path = some [9] ∧
    asserting_runtime.clCreateProgramWithBinary 0 0 [8] = (none, -42) ∧
    (cl_program_from_string asserting_runtime 0 0 sample_src [] "foo.c".toList 10 "bar".toList
      (state_with_file sample_path [8])).result = none := by
  decide

/-- Witness of C2 as amended: the sample request with the bytes `[9]` in its
cache file, on the asserting sample runtime. -/
theorem C2_rejected_binary_stops_witness :
    asserting_runtime.ChecksAssert ∧
    (state_with_file sample_path [9]).files sample_path = some [9] ∧
    asserting_runtime.clBuildProgram (some 3) 0 none ≠ 0 ∧
    ∃ (s1 : State) (new : List Call),
      cl_program_from_string asserting_runtime 0 0 sample_src [] "foo.c".toList 10
        "bar".toList (state_with_file sample_path [9]) = Run.abort s1 ∧
      (cl_program_from_string asserting_runtime 0 0 sample_src [] "foo.c".toList 10
        "bar".toList (state_with_file sample_path [9])).result = none ∧
      s1.calls = (state_with_file sample_path [9]).calls ++ new ∧
      (∀ c ∈ new, c.isSourceCompile = false ∧ c.isWrite = false) ∧
      s1.files = (state_with_file sample_path [9]).files :=
  ⟨⟨fun _ => rfl, fun _ _ => rfl⟩, by decide, by decide,
    C2_rejected_binary_stops asserting_runtime 0 0 sample_src [] "foo.c".toList 10 "bar".toList
      (state_with_file sample_path [9]) sample_path [9] ⟨fun _ => rfl, fun _ _ => rfl⟩
      (by decide) (by decide) (Or.inr (Or.inr (by decide)))⟩

/-- Witness of C3: the sample request on the asserting sample runtime,
starting from the empty store. -/
theorem C3_compile_once_witness :
    empty_state.files sample_path = none ∧
    ∃ (s1 s2 : State),
      cl_program_from_string asserting_runtime 0 0 sample_src [] "foo.c".toList 10
        "bar".toList empty_state = Run.ret (some 1) s1 ∧
      cl_program_from_string asserting_runtime 0 0 sample_src [] "foo.c".toList 10
        "bar".toList s1 = Run.ret (some 2) s2 ∧
      s1.files sample_path = some [1, 2, 3] ∧ s2.files = s1.files :=
  ⟨rfl,
    let ⟨s1, s2, _, _, h1, h2, _, _, _, _, _, _, _, h3, _, h4⟩ :=
      C3_compile_once asserting_runtime 0 0 sample_src [] "foo.c".toList 10 "bar".toList
        empty_state sample_path 1 2 [1, 2, 3] (by decide) rfl (by decide) (by decide)
        (by decide) rfl (by decide) (by decide) rfl rfl rfl
    ⟨s1, s2, h1, h2, h3, h4⟩⟩

/-- Witness of C4: the sample request with the binary `[1, 2, 3]` in its
cache file, on the asserting sample runtime. -/
theorem C4_cache_hit_witness :
    (state_with_file sample_path [1, 2, 3]).files sample_path = some [1, 2, 3] ∧
    ∃ s1 : State,
      cl_program_from_string asserting_runtime 0 0 sample_src [] "foo.c".toList 10
        "bar".toList (state_with_file sample_path [1, 2, 3]) = Run.ret (some 2) s1 ∧
      s1.files = (state_with_file sample_path [1, 2, 3]).files :=
  ⟨by decide,
    let ⟨s1, h1, h2, _⟩ :=
      C4_cache_hit asserting_runtime 0 0 sample_src [] "foo.c".toList 10 "bar".toList
        (state_with_file sample_path [1, 2, 3]) sample_path [1, 2, 3] 2
        (by decide) (by decide) (by decide) (by decide) rfl rfl
    ⟨s1, h1, h2⟩⟩

/-- Witness of C5: the source `bad`, whose build fails with the status -2
and the log `error`, on the asserting sample runtime with the empty store.
The run stops after these ten calls, the last one printing the log. -/
theorem C5_build_failure_witness :
    asserting_runtime.clBuildProgram (some 4) 0 (some []) ≠ 0 ∧
    ∃ s1 : State,
      cl_program_from_string asserting_runtime 0 0 "bad".toList [] "foo.c".toList 10
        "bar".toList empty_state = Run.abort s1 ∧
      s1.calls =
        [Call.clGetDeviceInfo 0,
         Call.clGetPlatformInfo 7 cl_platform_info.CL_PLATFORM_VERSION 0,
         Call.clGetPlatformInfo 7 cl_platform_info.CL_PLATFORM_VERSION 11,
         Call.read_file "/tmp/clcache/d0b37c4c987a677e.clb".toList,
         Call.clCreateProgramWithSource 0 "bad".toList,
         Call.clBuildProgram (some 4) 0 (some []),
         Call.clGetProgramBuildInfo (some 4) 0 cl_program_build_info.CL_PROGRAM_BUILD_STATUS 4,
         Call.clGetProgramBuildInfo (some 4) 0 cl_program_build_info.CL_PROGRAM_BUILD_LOG 0,
         Call.clGetProgramBuildInfo (some 4) 0 cl_program_build_info.CL_PROGRAM_BUILD_LOG 6,
         Call.printf "build failed; status=-2, log:\nerror\n".toList] ∧
      s1.files = empty_state.files :=
  ⟨by decide,
    let ⟨s1, _, h1, _, h2, h3, _, h4, _⟩ :=
      C5_build_failure asserting_runtime 0 0 "bad".toList [] "foo.c".toList 10 "bar".toList
        empty_state "/tmp/clcache/d0b37c4c987a677e.clb".toList
        (some 4) 0 (by decide) rfl (by decide) rfl (by decide)
    ⟨s1, h1, (h2.trans (congrArg _ h3)).trans (by decide), h4⟩⟩

/-- Witness of C6: the sample request on the asserting sample runtime with
the empty store and a `write_file` that always fails. -/
theorem C6_write_outcome_ignored_witness :
    empty_state.files sample_path = none ∧
    ∃ s1 : State,
      cl_program_from_string { asserting_runtime with write_file_ok := fun _ => false } 0 0
        sample_src [] "foo.c".toList 10 "bar".toList empty_state = Run.ret (some 1) s1 ∧
      s1.files = empty_state.files :=
  ⟨rfl,
    let ⟨s1, h1, _, _, h2⟩ :=
      C6_write_outcome_ignored asserting_runtime 0 0 sample_src [] "foo.c".toList 10
        "bar".toList empty_state sample_path 1 [1, 2, 3] (fun _ => false)
        (by decide) rfl (by decide) rfl (by decide) (by decide)
    ⟨s1, h1, h2 rfl⟩⟩

end Clutil
